import Mathlib

/-
Verification of the oculus repository deployment and inventory scripts.
Shallow embedding of:
  cdk/scripts/deploy-infra.ts   (deploy pipeline, confirmation gate, retry loop)
  cdk/scripts/delete-infra.ts   (delete pipeline, deletion confirmation gate)
  cdk/checkawsresources.ts      (AWSResourceInventory collector)
  cdk/scripts/generate-env.ts and the lambda env generator (backup-then-write)
  lambdas/api.ts                (submitSurveyAnswer validation)
Strings are modelled over ASCII: JS trim and toUpperCase and toLowerCase are
modelled by the corresponding character-wise operations, which agree with the
source on the ASCII inputs these scripts compare against.
-/

/-- JavaScript String.prototype.trim, modelled on the character list. -/
def jsTrim (cs : List Char) : List Char :=
  ((cs.dropWhile Char.isWhitespace).reverse.dropWhile Char.isWhitespace).reverse

/-- JavaScript String.prototype.toUpperCase, modelled character-wise (ASCII). -/
def jsUpper (cs : List Char) : List Char := cs.map Char.toUpper

/-- JavaScript String.prototype.toLowerCase, modelled character-wise (ASCII). -/
def jsLower (cs : List Char) : List Char := cs.map Char.toLower

/-- The combination answer.trim().toUpperCase() used by every readline prompt
in deploy-infra.ts and delete-infra.ts. -/
def trimUpper (s : String) : List Char := jsUpper (jsTrim s.toList)

/-- Substring containment on character lists (JavaScript String.includes). -/
def containsSub (hay needle : List Char) : Bool :=
  match hay with
  | [] => needle.isEmpty
  | _ :: t => List.isPrefixOf needle hay || containsSub t needle

/-- Case-insensitive substring test: hay.toLowerCase().includes(needle). -/
def containsCI (hay needle : String) : Bool :=
  containsSub (jsLower hay.toList) (jsLower needle.toList)

/-- A resource tag as returned by the AWS listing APIs. -/
structure Tag where
  key : String
  value : String
  deriving DecidableEq, Repr

namespace CheckAws

/-- hasOculusTag from checkawsresources.ts: some tag whose key or value
contains "oculus" case-insensitively. -/
def hasOculusTag (tags : List Tag) : Bool :=
  tags.any fun t => containsCI t.key "oculus" || containsCI t.value "oculus"

/-- hasOculusName from checkawsresources.ts. -/
def hasOculusName (name : String) : Bool :=
  containsCI name "oculus"

/-- Extraction of the Name tag value, defaulting to the empty string, as the
source does with tags.find on Key equal to "Name" and a fallback. -/
def nameTag (tags : List Tag) : String :=
  match tags.find? (fun t => t.key == "Name") with
  | some t => t.value
  | none => ""

structure Vpc where
  vpcId : String
  tags : List Tag
  deriving DecidableEq, Repr

structure Subnet where
  subnetId : String
  vpcId : Option String
  mapPublicIpOnLaunch : Bool
  tags : List Tag
  deriving DecidableEq, Repr

structure RouteTable where
  routeTableId : String
  vpcId : Option String
  tags : List Tag
  deriving DecidableEq, Repr

structure NetworkAcl where
  networkAclId : String
  vpcId : Option String
  tags : List Tag
  deriving DecidableEq, Repr

structure NatGateway where
  natGatewayId : String
  subnetId : Option String
  tags : List Tag
  deriving DecidableEq, Repr

structure Ec2Instance where
  instanceId : String
  subnetId : Option String
  tags : List Tag
  deriving DecidableEq, Repr

structure RdsInstance where
  dbInstanceIdentifier : String
  tagList : List Tag
  deriving DecidableEq, Repr

structure S3Bucket where
  name : Option String
  deriving DecidableEq, Repr

/-- The cloud as seen by AWSResourceInventory. A listing field holding none
models the bulk listing call throwing; describeVpc or describeSubnet or
getBucketTagging returning none models the secondary lookup throwing or
returning no record. -/
structure AwsWorld where
  listVpcs : Option (List Vpc)
  listSubnets : Option (List Subnet)
  listRouteTables : Option (List RouteTable)
  listNetworkAcls : Option (List NetworkAcl)
  listNatGateways : Option (List NatGateway)
  listInstances : Option (List Ec2Instance)
  listRdsInstances : Option (List RdsInstance)
  listBuckets : Option (List S3Bucket)
  describeVpc : String → Option Vpc
  describeSubnet : String → Option Subnet
  getBucketTagging : String → Option (List Tag)

/-- One-hop owner check used by getSubnets, getRouteTables, getNetworkAcls:
look up the VpcId and match the VPC by Name tag or any tag. A failed or empty
lookup is treated as no match (the catch body is empty in the source). -/
def vpcMatchById (w : AwsWorld) (vpcId : Option String) : Bool :=
  match vpcId with
  | none => false
  | some vid =>
    match w.describeVpc vid with
    | none => false
    | some vpc => hasOculusName (nameTag vpc.tags) || hasOculusTag vpc.tags

/-- Two-hop owner check used by getNatGateways and getEC2Instances: SubnetId
to subnet, then the subnet VpcId to the VPC, then match by name or tag. -/
def vpcMatchViaSubnet (w : AwsWorld) (subnetId : Option String) : Bool :=
  match subnetId with
  | none => false
  | some sid =>
    match w.describeSubnet sid with
    | none => false
    | some subnet => vpcMatchById w subnet.vpcId

/-- getVPCs: list, then filterOculusResources on Name tag and tags. -/
def getVPCs (w : AwsWorld) : List Vpc :=
  match w.listVpcs with
  | none => []
  | some vpcs => vpcs.filter fun v => hasOculusName (nameTag v.tags) || hasOculusTag v.tags

/-- The per-subnet acceptance test of getSubnets: own Name tag, own tags,
then the owning VPC by one hop. -/
def subnetMatches (w : AwsWorld) (s : Subnet) : Bool :=
  hasOculusName (nameTag s.tags) || hasOculusTag s.tags || vpcMatchById w s.vpcId

/-- getSubnets from checkawsresources.ts. -/
def getSubnets (w : AwsWorld) : List Subnet :=
  match w.listSubnets with
  | none => []
  | some subnets => subnets.filter fun s => subnetMatches w s

/-- The per-route-table acceptance test of getRouteTables. -/
def routeTableMatches (w : AwsWorld) (rt : RouteTable) : Bool :=
  hasOculusName (nameTag rt.tags) || hasOculusTag rt.tags || vpcMatchById w rt.vpcId

/-- getRouteTables from checkawsresources.ts. -/
def getRouteTables (w : AwsWorld) : List RouteTable :=
  match w.listRouteTables with
  | none => []
  | some rts => rts.filter fun rt => routeTableMatches w rt

/-- The per-ACL acceptance test of getNetworkAcls. -/
def aclMatches (w : AwsWorld) (acl : NetworkAcl) : Bool :=
  hasOculusName (nameTag acl.tags) || hasOculusTag acl.tags || vpcMatchById w acl.vpcId

/-- getNetworkAcls from checkawsresources.ts. -/
def getNetworkAcls (w : AwsWorld) : List NetworkAcl :=
  match w.listNetworkAcls with
  | none => []
  | some acls => acls.filter fun acl => aclMatches w acl

/-- The per-NAT-gateway acceptance test of getNatGateways: own Name tag, own
tags, then the owning VPC reached through the subnet. -/
def natMatches (w : AwsWorld) (nat : NatGateway) : Bool :=
  hasOculusName (nameTag nat.tags) || hasOculusTag nat.tags || vpcMatchViaSubnet w nat.subnetId

/-- getNatGateways from checkawsresources.ts. -/
def getNatGateways (w : AwsWorld) : List NatGateway :=
  match w.listNatGateways with
  | none => []
  | some nats => nats.filter fun nat => natMatches w nat

/-- The per-instance acceptance test of getEC2Instances. -/
def instanceMatches (w : AwsWorld) (inst : Ec2Instance) : Bool :=
  hasOculusName (nameTag inst.tags) || hasOculusTag inst.tags || vpcMatchViaSubnet w inst.subnetId

/-- getEC2Instances from checkawsresources.ts (reservations already
flattened into the listing). -/
def getEC2Instances (w : AwsWorld) : List Ec2Instance :=
  match w.listInstances with
  | none => []
  | some insts => insts.filter fun inst => instanceMatches w inst

/-- getRDSInstances: filterOculusResources on DBInstanceIdentifier and TagList. -/
def getRDSInstances (w : AwsWorld) : List RdsInstance :=
  match w.listRdsInstances with
  | none => []
  | some xs => xs.filter fun r => hasOculusName r.dbInstanceIdentifier || hasOculusTag r.tagList

/-- The per-bucket acceptance test of getS3Buckets: bucket name, else a
secondary getBucketTagging lookup whose failure means skip. -/
def bucketMatches (w : AwsWorld) (b : S3Bucket) : Bool :=
  match b.name with
  | none => false
  | some n =>
    hasOculusName n ||
      (match w.getBucketTagging n with
       | none => false
       | some tags => hasOculusTag tags)

/-- getS3Buckets from checkawsresources.ts. -/
def getS3Buckets (w : AwsWorld) : List S3Bucket :=
  match w.listBuckets with
  | none => []
  | some bs => bs.filter fun b => bucketMatches w b

/-- The snapshot assembled by collectInventory. -/
structure ResourceInventory where
  vpcs : List Vpc
  subnets : List Subnet
  routeTables : List RouteTable
  networkAcls : List NetworkAcl
  natGateways : List NatGateway
  ec2Instances : List Ec2Instance
  rdsInstances : List RdsInstance
  s3Buckets : List S3Bucket
  deriving DecidableEq, Repr

/-- collectInventory: the Promise.all fan-out over the eight per-kind getters,
assembled into the snapshot. -/
def collectInventory (w : AwsWorld) : ResourceInventory :=
  { vpcs := getVPCs w
    subnets := getSubnets w
    routeTables := getRouteTables w
    networkAcls := getNetworkAcls w
    natGateways := getNatGateways w
    ec2Instances := getEC2Instances w
    rdsInstances := getRDSInstances w
    s3Buckets := getS3Buckets w }

/-- The eight resource kinds collected by the inventory. -/
inductive ResourceKind
  | vpcs | subnets | routeTables | networkAcls
  | natGateways | ec2Instances | rdsInstances | s3Buckets
  deriving DecidableEq, Repr

/-- Fault injection: the world w with the bulk listing call for kind k made
to throw. -/
def failKind (w : AwsWorld) : ResourceKind → AwsWorld
  | .vpcs => { w with listVpcs := none }
  | .subnets => { w with listSubnets := none }
  | .routeTables => { w with listRouteTables := none }
  | .networkAcls => { w with listNetworkAcls := none }
  | .natGateways => { w with listNatGateways := none }
  | .ec2Instances => { w with listInstances := none }
  | .rdsInstances => { w with listRdsInstances := none }
  | .s3Buckets => { w with listBuckets := none }

/-- The snapshot inv with the list for kind k replaced by the empty list. -/
def setKindEmpty (inv : ResourceInventory) : ResourceKind → ResourceInventory
  | .vpcs => { inv with vpcs := [] }
  | .subnets => { inv with subnets := [] }
  | .routeTables => { inv with routeTables := [] }
  | .networkAcls => { inv with networkAcls := [] }
  | .natGateways => { inv with natGateways := [] }
  | .ec2Instances => { inv with ec2Instances := [] }
  | .rdsInstances => { inv with rdsInstances := [] }
  | .s3Buckets => { inv with s3Buckets := [] }

end CheckAws

namespace DeployInfra

/-- The structure type InternetGateway (only its presence is inspected). -/
structure InternetGateway where
  internetGatewayId : String
  deriving DecidableEq, Repr

/-- The structure type SecurityGroup (only its presence is inspected). -/
structure SecurityGroup where
  groupId : String
  deriving DecidableEq, Repr

/-- The structure type RdsProxy (only its presence is inspected). -/
structure RdsProxy where
  dbProxyName : String
  deriving DecidableEq, Repr

/-- The ResourceInventory interface of deploy-infra.ts, the shape loaded from
aws-inventory.json. -/
structure ResourceInventory where
  vpcs : List CheckAws.Vpc
  subnets : List CheckAws.Subnet
  routeTables : List CheckAws.RouteTable
  networkAcls : List CheckAws.NetworkAcl
  natGateways : List CheckAws.NatGateway
  internetGateways : List InternetGateway
  securityGroups : List SecurityGroup
  ec2Instances : List CheckAws.Ec2Instance
  rdsInstances : List CheckAws.RdsInstance
  rdsProxies : List RdsProxy
  s3Buckets : List CheckAws.S3Bucket
  deriving DecidableEq, Repr

/-- The publicSubnets filter of deploy-infra.ts main: MapPublicIpOnLaunch, or
a Name tag whose value matches the regex public, case-insensitively. -/
def isPublicSubnet (s : CheckAws.Subnet) : Bool :=
  s.mapPublicIpOnLaunch ||
    s.tags.any (fun t => t.key == "Name" && containsCI t.value "public")

/-- The privateSubnets filter of deploy-infra.ts main: not MapPublicIpOnLaunch
and a Name tag matching the regex private or isolated, case-insensitively. -/
def isPrivateSubnet (s : CheckAws.Subnet) : Bool :=
  !s.mapPublicIpOnLaunch &&
    s.tags.any (fun t => t.key == "Name" && (containsCI t.value "private" || containsCI t.value "isolated"))

/-- The existingResources object computed in deploy-infra.ts main, one boolean
presence check per required resource, in source order. -/
structure ExistingResources where
  vpc : Bool
  subnets : Bool
  publicSubnet : Bool
  privateSubnet : Bool
  internetGateway : Bool
  securityGroups : Bool
  rds : Bool
  rdsProxy : Bool
  ec2 : Bool
  s3 : Bool
  routeTables : Bool
  networkAcls : Bool
  deriving DecidableEq, Repr

/-- The presence checks of deploy-infra.ts main. -/
def existingResources (inv : ResourceInventory) : ExistingResources :=
  { vpc := decide (inv.vpcs.length > 0)
    subnets := decide (inv.subnets.length ≥ 3)
    publicSubnet := decide ((inv.subnets.filter isPublicSubnet).length > 0)
    privateSubnet := decide ((inv.subnets.filter isPrivateSubnet).length > 0)
    internetGateway := decide (inv.internetGateways.length > 0)
    securityGroups := decide (inv.securityGroups.length > 0)
    rds := decide (inv.rdsInstances.length > 0)
    rdsProxy := decide (inv.rdsProxies.length > 0)
    ec2 := decide (inv.ec2Instances.length > 0)
    s3 := decide (inv.s3Buckets.length > 0)
    routeTables := decide (inv.routeTables.length > 0)
    networkAcls := decide (inv.networkAcls.length > 0) }

/-- Object.values(existingResources).every(exists) from deploy-infra.ts main. -/
def allResourcesExist (inv : ResourceInventory) : Bool :=
  let r := existingResources inv
  r.vpc && r.subnets && r.publicSubnet && r.privateSubnet && r.internetGateway &&
    r.securityGroups && r.rds && r.rdsProxy && r.ec2 && r.s3 && r.routeTables && r.networkAcls

/-- The confirmation gate of deploy-infra.ts main: the answer is trimmed and
uppercased, and the script proceeds only on an exact comparison with YES. -/
def deployGateProceeds (input : String) : Bool :=
  trimUpper input == "YES".toList

/-- VPC deployment strategies returned by askVPCPreference. -/
inductive VpcStrategy
  | vpcNew
  | vpcExisting
  deriving DecidableEq, Repr

/-- askVPCPreference from deploy-infra.ts: the trimmed uppercased answer is
compared with NEW and EXISTING; anything else defaults to the new-VPC path. -/
def askVPCPreference (input : String) : VpcStrategy :=
  let choice := trimUpper input
  if choice == "NEW".toList then VpcStrategy.vpcNew
  else if choice == "EXISTING".toList then VpcStrategy.vpcExisting
  else VpcStrategy.vpcNew

/-- The outcome of one run of an https request in getCurrentPublicIP: a
response with a status code and body, a request error, or the 10-second
timeout firing. -/
inductive HttpResult
  | ok (status : Nat) (body : String)
  | netError (msg : String)
  | timedOut
  deriving Repr

/-- The timeout passed to req.setTimeout in getCurrentPublicIP, in
milliseconds. -/
def ipTimeoutMs : Nat := 10000

/-- getCurrentPublicIP from deploy-infra.ts: resolve with the trimmed body on
status 200, reject otherwise; the timeout destroys the request and rejects
with the message Request timeout. -/
def getCurrentPublicIP : HttpResult → Except String String
  | .ok 200 body => Except.ok (String.mk (jsTrim body.toList))
  | .ok s _ => Except.error ("HTTP " ++ toString s)
  | .netError m => Except.error m
  | .timedOut => Except.error "Request timeout"

/-- updateInventoryWithPublicIP from deploy-infra.ts: any lookup failure is
rethrown as the fatal precondition error. -/
def updateInventoryWithPublicIP (r : HttpResult) : Except String String :=
  match getCurrentPublicIP r with
  | Except.ok ip => Except.ok ip
  | Except.error _ => Except.error "Cannot proceed without public IP address"

/-- Externally visible steps of one deploy-infra.ts run. -/
inductive Event
  | checkResources
  | ipLookup
  | strategyChosen (s : VpcStrategy)
  | synthAttempt (i : Nat)
  | sleep (ms : Nat)
  | deploy
  | verify
  deriving DecidableEq, Repr

/-- Recognizer for synthesis attempts in a trace. -/
def isSynthAttempt : Event → Bool
  | .synthAttempt _ => true
  | _ => false

/-- synthAttempts from deploy-infra.ts main. -/
def synthAttempts : Nat := 3

/-- The cdk synth retry loop of deploy-infra.ts main, with remaining the
number of attempts left and i the attempt counter: try the attempt; on
success stop; on the last attempt rethrow; otherwise sleep 5000 milliseconds
and retry. Returns the emitted events and whether synthesis succeeded. -/
def runSynthFrom (synth : Nat → Bool) : Nat → Nat → List Event × Bool
  | 0, _ => ([], false)
  | remaining + 1, i =>
    if synth i then ([Event.synthAttempt i], true)
    else if remaining = 0 then ([Event.synthAttempt i], false)
    else
      let rest := runSynthFrom synth remaining (i + 1)
      (Event.synthAttempt i :: Event.sleep 5000 :: rest.1, rest.2)

/-- Result of one run of a script process. -/
inductive Outcome
  | cancelled
  | completed
  | fatal
  deriving DecidableEq, Repr

/-- The external world consumed by one deploy-infra.ts run: whether the
initial inventory refresh succeeds, the public-IP lookup outcome, the loaded
inventory, the two operator answers, and the success of the npm install, of
each cdk synth attempt, of cdk deploy, and of the verification re-check. -/
structure DeployWorld where
  checkOk : Bool
  ipResult : HttpResult
  inventory : ResourceInventory
  confirmInput : String
  vpcInput : String
  installOk : Bool
  synth : Nat → Bool
  deployOk : Bool
  verifyOk : Bool

/-- The main pipeline of deploy-infra.ts as a trace of events plus an
outcome: inventory refresh, public-IP precondition, gap analysis, the
confirmation gate when resources are missing, the VPC strategy prompt, npm
install, the bounded synth retry loop, a single cdk deploy, and the
verification re-check. -/
def runDeploy (w : DeployWorld) : List Event × Outcome :=
  if w.checkOk = false then ([Event.checkResources], Outcome.fatal)
  else
    match updateInventoryWithPublicIP w.ipResult with
    | Except.error _ => ([Event.checkResources, Event.ipLookup], Outcome.fatal)
    | Except.ok _ =>
      if allResourcesExist w.inventory || deployGateProceeds w.confirmInput then
        let pre := [Event.checkResources, Event.ipLookup,
                    Event.strategyChosen (askVPCPreference w.vpcInput)]
        if w.installOk then
          let s := runSynthFrom w.synth synthAttempts 1
          if s.2 then
            if w.deployOk then
              (pre ++ s.1 ++ [Event.deploy, Event.verify],
               if w.verifyOk then Outcome.completed else Outcome.fatal)
            else (pre ++ s.1 ++ [Event.deploy], Outcome.fatal)
          else (pre ++ s.1, Outcome.fatal)
        else (pre, Outcome.fatal)
      else ([Event.checkResources, Event.ipLookup], Outcome.cancelled)

end DeployInfra

namespace DeleteInfra

/-- getUserConfirmation from delete-infra.ts: the answer is trimmed and
uppercased and compared with the phrase DELETE ALL. -/
def getUserConfirmation (input : String) : Bool :=
  trimUpper input == "DELETE ALL".toList

/-- Externally visible steps of one delete-infra.ts run. -/
inductive DelEvent
  | checkResources
  | destroy
  | verify
  deriving DecidableEq, Repr

/-- The external world consumed by one delete-infra.ts run. -/
structure DeleteWorld where
  checkOk : Bool
  confirmInput : String
  installOk : Bool
  destroyOk : Bool
  verifyOk : Bool

/-- The main pipeline of delete-infra.ts: inventory refresh, summary display,
the deletion confirmation gate, npm install, cdk destroy, and a final
verification whose failure is only warned about. -/
def runDelete (w : DeleteWorld) : List DelEvent × DeployInfra.Outcome :=
  if w.checkOk = false then ([DelEvent.checkResources], DeployInfra.Outcome.fatal)
  else if getUserConfirmation w.confirmInput = false then
    ([DelEvent.checkResources], DeployInfra.Outcome.cancelled)
  else if w.installOk = false then
    ([DelEvent.checkResources], DeployInfra.Outcome.fatal)
  else if w.destroyOk = false then
    ([DelEvent.checkResources, DelEvent.destroy], DeployInfra.Outcome.fatal)
  else
    ([DelEvent.checkResources, DelEvent.destroy, DelEvent.verify],
     DeployInfra.Outcome.completed)

end DeleteInfra

namespace GenerateEnv

/-- A local filesystem fragment: path to file content when the file exists. -/
def FileSys : Type := String → Option String

/-- The save step shared by the two environment-file generators (section 4 of
4 in generate-env.ts and in the lambda env generator): if the target exists
its content is first copied to the backup path, then the target is
overwritten with the generated content. -/
def saveEnvFile (fs : FileSys) (envPath backupPath content : String) : FileSys :=
  let afterBackup : FileSys :=
    match fs envPath with
    | some old => fun p => if p == backupPath then some old else fs p
    | none => fs
  fun p => if p == envPath then some content else afterBackup p

/-- The frontend target path name in generate-env.ts. -/
def envLocalName : String := ".env.local"

/-- The frontend backup path name in generate-env.ts. -/
def envLocalBackupName : String := ".env.local.backup"

/-- The lambda target path name in the lambda env generator. -/
def lambdaEnvName : String := ".env"

/-- The lambda backup path name in the lambda env generator. -/
def lambdaEnvBackupName : String := ".env.backup"

end GenerateEnv

namespace Api

/-- JavaScript values as far as the submit handler inspects them: enough to
decide truthiness and Array.isArray. -/
inductive JsVal
  | undef
  | nullv
  | boolv (b : Bool)
  | numv (n : Int)
  | strv (s : String)
  | arrv (xs : List String)
  | objv

/-- JavaScript truthiness for the modelled values. -/
def truthy : JsVal → Bool
  | .undef => false
  | .nullv => false
  | .boolv b => b
  | .numv n => decide (n ≠ 0)
  | .strv s => decide (s ≠ "")
  | .arrv _ => true
  | .objv => true

/-- Array.isArray for the modelled values. -/
def isArray : JsVal → Bool
  | .arrv _ => true
  | _ => false

/-- The request body as seen after JSON.parse inside submitSurveyAnswer:
either the parse throws, or the three destructured fields are read off (a
missing field reads as undefined). -/
inductive ParsedBody
  | parseError
  | fields (question_id selected_answers timestamp : JsVal)

/-- The success payload returned by submitSurveyAnswer. -/
structure SubmitResult where
  message : String
  question_id : JsVal
  selected_answers : JsVal

/-- submitSurveyAnswer from lambdas/api.ts: a missing body throws, a parse
failure propagates, and the validation throws when question_id is falsy,
selected_answers is falsy, or selected_answers is not an array; otherwise the
submission is acknowledged. -/
def submitSurveyAnswer (body : Option ParsedBody) : Except String SubmitResult :=
  match body with
  | none => Except.error "Request body is required"
  | some ParsedBody.parseError => Except.error "Unexpected token in JSON"
  | some (ParsedBody.fields qid sel _ts) =>
    if !truthy qid || !truthy sel || !isArray sel then
      Except.error "Invalid request: question_id and selected_answers array are required"
    else
      Except.ok { message := "Answer submitted successfully"
                  question_id := qid
                  selected_answers := sel }

/-- Whether the handler acknowledged the submission (the 200 path of the
lambda handler) rather than surfacing an error (the 500 path). -/
def isOkB (r : Except String SubmitResult) : Bool :=
  match r with
  | Except.ok _ => true
  | Except.error _ => false

end Api

/-- Follows the wording of the creation-gate claim, not the source: the
operator input is a case-insensitive exact match of the required token, with
no trimming of surrounding whitespace. -/
def caseInsensitiveExactMatchSpec (input token : String) : Bool :=
  jsUpper input.toList == jsUpper token.toList

/-- A VPC whose Name tag carries the project marker. -/
def vpcEx : CheckAws.Vpc :=
  { vpcId := "vpc-1", tags := [{ key := "Name", value := "oculus-vpc" }] }

/-- A subnet that does not itself match the marker but belongs to vpcEx. -/
def subnetEx : CheckAws.Subnet :=
  { subnetId := "subnet-1", vpcId := some "vpc-1", mapPublicIpOnLaunch := false,
    tags := [{ key := "Name", value := "plain-subnet" }] }

/-- A NAT gateway with no tags of its own, placed in subnetEx. -/
def natEx : CheckAws.NatGateway :=
  { natGatewayId := "nat-1", subnetId := some "subnet-1", tags := [] }

/-- A concrete world for the collector: one marked VPC, one unmarked subnet
inside it, one untagged NAT gateway inside that subnet. -/
def worldEx : CheckAws.AwsWorld :=
  { listVpcs := some [vpcEx]
    listSubnets := some [subnetEx]
    listRouteTables := some []
    listNetworkAcls := some []
    listNatGateways := some [natEx]
    listInstances := some []
    listRdsInstances := some []
    listBuckets := some []
    describeVpc := fun vid => if vid == "vpc-1" then some vpcEx else none
    describeSubnet := fun sid => if sid == "subnet-1" then some subnetEx else none
    getBucketTagging := fun _ => none }

/-- An empty deploy inventory: every presence check fails. -/
def invMissingEx : DeployInfra.ResourceInventory :=
  { vpcs := [], subnets := [], routeTables := [], networkAcls := [],
    natGateways := [], internetGateways := [], securityGroups := [],
    ec2Instances := [], rdsInstances := [], rdsProxies := [], s3Buckets := [] }

/-- A deploy world in which resources are missing and the operator declines. -/
def declineWorldEx : DeployInfra.DeployWorld :=
  { checkOk := true, ipResult := DeployInfra.HttpResult.ok 200 "1.2.3.4",
    inventory := invMissingEx, confirmInput := "no", vpcInput := "",
    installOk := true, synth := fun _ => true, deployOk := true, verifyOk := true }

/-- A deploy world whose public-IP lookup timed out. -/
def ipFailWorldEx : DeployInfra.DeployWorld :=
  { checkOk := true, ipResult := DeployInfra.HttpResult.timedOut,
    inventory := invMissingEx, confirmInput := "YES", vpcInput := "NEW",
    installOk := true, synth := fun _ => true, deployOk := true, verifyOk := true }

/-- Three private subnets carrying the project marker; none qualifies as a
public subnet. -/
def privateSubnetsEx : List CheckAws.Subnet :=
  [ { subnetId := "subnet-a", vpcId := some "vpc-1", mapPublicIpOnLaunch := false,
      tags := [{ key := "Name", value := "oculus-private-1" }] },
    { subnetId := "subnet-b", vpcId := some "vpc-1", mapPublicIpOnLaunch := false,
      tags := [{ key := "Name", value := "oculus-private-2" }] },
    { subnetId := "subnet-c", vpcId := some "vpc-1", mapPublicIpOnLaunch := false,
      tags := [{ key := "Name", value := "oculus-isolated-1" }] } ]

/-- An inventory in which every presence check passes except publicSubnet. -/
def invNoPublicEx : DeployInfra.ResourceInventory :=
  { vpcs := [vpcEx]
    subnets := privateSubnetsEx
    routeTables := [{ routeTableId := "rtb-1", vpcId := some "vpc-1", tags := [] }]
    networkAcls := [{ networkAclId := "acl-1", vpcId := some "vpc-1", tags := [] }]
    natGateways := []
    internetGateways := [{ internetGatewayId := "igw-1" }]
    securityGroups := [{ groupId := "sg-1" }]
    ec2Instances := [{ instanceId := "i-1", subnetId := some "subnet-a", tags := [] }]
    rdsInstances := [{ dbInstanceIdentifier := "oculusdb", tagList := [] }]
    rdsProxies := [{ dbProxyName := "oculus-proxy" }]
    s3Buckets := [{ name := some "oculus-bucket" }] }

/-- A world over invNoPublicEx where the operator reuses an existing VPC and
declines at the confirmation gate. -/
def noPublicDeclineWorldEx : DeployInfra.DeployWorld :=
  { checkOk := true, ipResult := DeployInfra.HttpResult.ok 200 "1.2.3.4",
    inventory := invNoPublicEx, confirmInput := "", vpcInput := "EXISTING",
    installOk := true, synth := fun _ => true, deployOk := true, verifyOk := true }

/-- The same scenario with the operator confirming at the gate. -/
def noPublicConfirmWorldEx : DeployInfra.DeployWorld :=
  { checkOk := true, ipResult := DeployInfra.HttpResult.ok 200 "1.2.3.4",
    inventory := invNoPublicEx, confirmInput := "yes", vpcInput := "EXISTING",
    installOk := true, synth := fun _ => true, deployOk := true, verifyOk := true }

/-- An inventory in which every presence check passes. -/
def invFullEx : DeployInfra.ResourceInventory :=
  { invNoPublicEx with
    subnets := { subnetId := "subnet-p", vpcId := some "vpc-1",
                 mapPublicIpOnLaunch := true,
                 tags := [{ key := "Name", value := "oculus-public-1" }] }
               :: privateSubnetsEx }

/-- A world over invFullEx whose deploy command fails. -/
def deployFailWorldEx : DeployInfra.DeployWorld :=
  { checkOk := true, ipResult := DeployInfra.HttpResult.ok 200 "1.2.3.4",
    inventory := invFullEx, confirmInput := "", vpcInput := "NEW",
    installOk := true, synth := fun _ => true, deployOk := false, verifyOk := true }

/-- A delete world where the operator declines the deletion gate. -/
def deleteDeclineWorldEx : DeleteInfra.DeleteWorld :=
  { checkOk := true, confirmInput := "yes", installOk := true,
    destroyOk := true, verifyOk := true }

/-- A filesystem fragment holding only the frontend env file. -/
def fsEx : GenerateEnv.FileSys :=
  fun p => if p == GenerateEnv.envLocalName then some "OLD" else none

/-- C4: failing the listing call for any one resource kind yields an empty
list for exactly that kind, and the snapshot lists for every other kind are
exactly what they would have been without the failure. -/
theorem listing_failure_isolation (w : CheckAws.AwsWorld) (k : CheckAws.ResourceKind) :
    CheckAws.collectInventory (CheckAws.failKind w k) =
      CheckAws.setKindEmpty (CheckAws.collectInventory w) k := by
  cases k <;> rfl

/-- C7: for subnets, route tables, network ACLs, NAT gateways and EC2
instances, a listed resource is kept exactly when it matches the marker
itself (by Name tag or any tag key or value, case-insensitively) or its
owning VPC, reached by one hop (through the subnet for NAT gateways and
instances), matches by name or tag. -/
theorem child_inclusion_via_parent_vpc (w : CheckAws.AwsWorld)
    (ss : List CheckAws.Subnet) (rts : List CheckAws.RouteTable)
    (acls : List CheckAws.NetworkAcl) (ngs : List CheckAws.NatGateway)
    (insts : List CheckAws.Ec2Instance)
    (hs : w.listSubnets = some ss) (hr : w.listRouteTables = some rts)
    (ha : w.listNetworkAcls = some acls) (hn : w.listNatGateways = some ngs)
    (hi : w.listInstances = some insts)
    (s : CheckAws.Subnet) (rt : CheckAws.RouteTable) (acl : CheckAws.NetworkAcl)
    (ng : CheckAws.NatGateway) (inst : CheckAws.Ec2Instance) :
    (s ∈ CheckAws.getSubnets w ↔ s ∈ ss ∧
      (CheckAws.hasOculusName (CheckAws.nameTag s.tags) = true ∨
       CheckAws.hasOculusTag s.tags = true ∨ CheckAws.vpcMatchById w s.vpcId = true)) ∧
    (rt ∈ CheckAws.getRouteTables w ↔ rt ∈ rts ∧
      (CheckAws.hasOculusName (CheckAws.nameTag rt.tags) = true ∨
       CheckAws.hasOculusTag rt.tags = true ∨ CheckAws.vpcMatchById w rt.vpcId = true)) ∧
    (acl ∈ CheckAws.getNetworkAcls w ↔ acl ∈ acls ∧
      (CheckAws.hasOculusName (CheckAws.nameTag acl.tags) = true ∨
       CheckAws.hasOculusTag acl.tags = true ∨ CheckAws.vpcMatchById w acl.vpcId = true)) ∧
    (ng ∈ CheckAws.getNatGateways w ↔ ng ∈ ngs ∧
      (CheckAws.hasOculusName (CheckAws.nameTag ng.tags) = true ∨
       CheckAws.hasOculusTag ng.tags = true ∨ CheckAws.vpcMatchViaSubnet w ng.subnetId = true)) ∧
    (inst ∈ CheckAws.getEC2Instances w ↔ inst ∈ insts ∧
      (CheckAws.hasOculusName (CheckAws.nameTag inst.tags) = true ∨
       CheckAws.hasOculusTag inst.tags = true ∨ CheckAws.vpcMatchViaSubnet w inst.subnetId = true)) := by
  refine ⟨?_, ?_, ?_, ?_, ?_⟩
  · simp [CheckAws.getSubnets, hs, List.mem_filter, CheckAws.subnetMatches,
      Bool.or_eq_true, and_assoc, or_assoc]
  · simp [CheckAws.getRouteTables, hr, List.mem_filter, CheckAws.routeTableMatches,
      Bool.or_eq_true, and_assoc, or_assoc]
  · simp [CheckAws.getNetworkAcls, ha, List.mem_filter, CheckAws.aclMatches,
      Bool.or_eq_true, and_assoc, or_assoc]
  · simp [CheckAws.getNatGateways, hn, List.mem_filter, CheckAws.natMatches,
      Bool.or_eq_true, and_assoc, or_assoc]
  · simp [CheckAws.getEC2Instances, hi, List.mem_filter, CheckAws.instanceMatches,
      Bool.or_eq_true, and_assoc, or_assoc]

/-- Witness for C7 at a concrete world: the subnet and the NAT gateway do not
match the marker themselves, yet both are included because their owning VPC
does. -/
theorem child_inclusion_via_parent_vpc_witness :
    CheckAws.hasOculusName (CheckAws.nameTag subnetEx.tags) = false ∧
    CheckAws.hasOculusTag subnetEx.tags = false ∧
    CheckAws.hasOculusTag natEx.tags = false ∧
    subnetEx ∈ CheckAws.getSubnets worldEx ∧
    natEx ∈ CheckAws.getNatGateways worldEx := by
  have h := child_inclusion_via_parent_vpc worldEx [subnetEx] [] [] [natEx] []
    rfl rfl rfl rfl rfl subnetEx ⟨"", none, []⟩ ⟨"", none, []⟩ natEx ⟨"", none, []⟩
  refine ⟨by decide, by decide, by decide, ?_, ?_⟩
  · exact h.1.mpr (by decide)
  · exact h.2.2.2.1.mpr (by decide)

/-- Counterexample to C1 as stated: the input " yes" is not a
case-insensitive exact match of the token "YES" (it carries leading
whitespace), yet the creation gate proceeds, because the source trims the
answer before comparing. -/
theorem deploy_gate_untrimmed_counterexample :
    DeployInfra.deployGateProceeds " yes" = true ∧
    caseInsensitiveExactMatchSpec " yes" "YES" = false := by decide

/-- C1 (amended): the creation gate proceeds exactly when the operator input,
after trimming surrounding whitespace, is a case-insensitive exact match of
the token "YES"; on every other input the run ends in a clean cancellation
without invoking any synthesis attempt or the deployment command. -/
theorem deploy_confirm_gate (w : DeployInfra.DeployWorld) (input : String)
    (hck : w.checkOk = true)
    (hip : ∃ s, DeployInfra.updateInventoryWithPublicIP w.ipResult = Except.ok s)
    (hmiss : DeployInfra.allResourcesExist w.inventory = false)
    (hdecl : DeployInfra.deployGateProceeds w.confirmInput = false) :
    (DeployInfra.deployGateProceeds input = true ↔ trimUpper input = "YES".toList) ∧
    (DeployInfra.runDeploy w).2 = DeployInfra.Outcome.cancelled ∧
    (DeployInfra.runDeploy w).1.any DeployInfra.isSynthAttempt = false ∧
    DeployInfra.Event.deploy ∉ (DeployInfra.runDeploy w).1 := by
  obtain ⟨s, hs⟩ := hip
  have hrun : DeployInfra.runDeploy w =
      ([DeployInfra.Event.checkResources, DeployInfra.Event.ipLookup],
       DeployInfra.Outcome.cancelled) := by
    simp [DeployInfra.runDeploy, hck, hs, hmiss, hdecl]
  refine ⟨?_, ?_, ?_, ?_⟩
  · simp [DeployInfra.deployGateProceeds]
  · rw [hrun]
  · rw [hrun]; decide
  · rw [hrun]; decide

/-- Witness for C1 at a concrete world: missing resources, answer "no". -/
theorem deploy_confirm_gate_witness :
    (DeployInfra.runDeploy declineWorldEx).2 = DeployInfra.Outcome.cancelled ∧
    DeployInfra.Event.deploy ∉ (DeployInfra.runDeploy declineWorldEx).1 := by
  have h := deploy_confirm_gate declineWorldEx "yes" rfl ⟨"1.2.3.4", rfl⟩
    (by decide) (by decide)
  exact ⟨h.2.1, h.2.2.2⟩

/-- C2: the deletion gate proceeds exactly when the trimmed operator input is
a case-insensitive exact match of the phrase "DELETE ALL", a longer phrase
distinct from the creation token "YES"; on any other input the deletion run
is cancelled before the destroy command, and when the gate is passed the
destroy command is reached. -/
theorem delete_confirm_gate (w : DeleteInfra.DeleteWorld) (input : String)
    (hck : w.checkOk = true)
    (hdecl : DeleteInfra.getUserConfirmation w.confirmInput = false) :
    (DeleteInfra.getUserConfirmation input = true ↔ trimUpper input = "DELETE ALL".toList) ∧
    "DELETE ALL" ≠ "YES" ∧
    "YES".toList.length < "DELETE ALL".toList.length ∧
    (DeleteInfra.runDelete w).2 = DeployInfra.Outcome.cancelled ∧
    DeleteInfra.DelEvent.destroy ∉ (DeleteInfra.runDelete w).1 ∧
    (∀ w2 : DeleteInfra.DeleteWorld, w2.checkOk = true → w2.installOk = true →
      DeleteInfra.getUserConfirmation w2.confirmInput = true →
      DeleteInfra.DelEvent.destroy ∈ (DeleteInfra.runDelete w2).1) := by
  have hrun : DeleteInfra.runDelete w =
      ([DeleteInfra.DelEvent.checkResources], DeployInfra.Outcome.cancelled) := by
    simp [DeleteInfra.runDelete, hck, hdecl]
  refine ⟨?_, by decide, by decide, ?_, ?_, ?_⟩
  · simp [DeleteInfra.getUserConfirmation]
  · rw [hrun]
  · rw [hrun]; decide
  · intro w2 h1 h2 h3
    by_cases hd : w2.destroyOk = false <;>
      simp [DeleteInfra.runDelete, h1, h2, h3, hd]

/-- Witness for C2 at a concrete world: the creation token "yes" does not
pass the deletion gate and the destroy command is never reached. -/
theorem delete_confirm_gate_witness :
    (DeleteInfra.runDelete deleteDeclineWorldEx).2 = DeployInfra.Outcome.cancelled ∧
    DeleteInfra.DelEvent.destroy ∉ (DeleteInfra.runDelete deleteDeclineWorldEx).1 := by
  have h := delete_confirm_gate deleteDeclineWorldEx "delete all" rfl (by decide)
  exact ⟨h.2.2.2.1, h.2.2.2.2.1⟩

/-- The synth retry loop never emits a deploy event. -/
theorem runSynthFrom_no_deploy (synth : Nat → Bool) :
    ∀ r i, DeployInfra.Event.deploy ∉ (DeployInfra.runSynthFrom synth r i).1 := by
  intro r
  induction r with
  | zero => intro i; simp [DeployInfra.runSynthFrom]
  | succ n ih =>
    intro i
    by_cases h1 : synth i
    · simp [DeployInfra.runSynthFrom, h1]
    · by_cases h2 : n = 0
      · simp [DeployInfra.runSynthFrom, h1, h2]
      · simpa [DeployInfra.runSynthFrom, h1, h2] using ih (i + 1)

/-- The synth retry loop always records its first attempt. -/
theorem runSynthFrom_first_attempt (synth : Nat → Bool) (r i : Nat) :
    DeployInfra.Event.synthAttempt i ∈ (DeployInfra.runSynthFrom synth (r + 1) i).1 := by
  by_cases h1 : synth i
  · simp [DeployInfra.runSynthFrom, h1]
  · by_cases h2 : r = 0 <;> simp [DeployInfra.runSynthFrom, h1, h2]

/-- C3: synthesis is attempted at most 3 times with a fixed 5000 millisecond
pause between consecutive attempts and no backoff growth; if each attempt
fails the loop fails after exactly 3 attempts, if the third succeeds the loop
succeeds after exactly 3 attempts and two pauses; the deploy command appears
at most once in any trace of the pipeline, and a deploy failure makes the run
fatal. -/
theorem synth_retry_deploy_once (w : DeployInfra.DeployWorld) (synth : Nat → Bool) :
    DeployInfra.synthAttempts = 3 ∧
    ((∀ i, synth i = false) →
      DeployInfra.runSynthFrom synth DeployInfra.synthAttempts 1 =
        ([DeployInfra.Event.synthAttempt 1, DeployInfra.Event.sleep 5000,
          DeployInfra.Event.synthAttempt 2, DeployInfra.Event.sleep 5000,
          DeployInfra.Event.synthAttempt 3], false)) ∧
    (synth 1 = false → synth 2 = false → synth 3 = true →
      DeployInfra.runSynthFrom synth DeployInfra.synthAttempts 1 =
        ([DeployInfra.Event.synthAttempt 1, DeployInfra.Event.sleep 5000,
          DeployInfra.Event.synthAttempt 2, DeployInfra.Event.sleep 5000,
          DeployInfra.Event.synthAttempt 3], true)) ∧
    (DeployInfra.runDeploy w).1.count DeployInfra.Event.deploy ≤ 1 ∧
    (w.deployOk = false → DeployInfra.Event.deploy ∈ (DeployInfra.runDeploy w).1 →
      (DeployInfra.runDeploy w).2 = DeployInfra.Outcome.fatal) := by
  refine ⟨rfl, ?_, ?_, ?_, ?_⟩
  · intro hall
    simp [DeployInfra.synthAttempts, DeployInfra.runSynthFrom, hall 1, hall 2, hall 3]
  · intro h1 h2 h3
    simp [DeployInfra.synthAttempts, DeployInfra.runSynthFrom, h1, h2, h3]
  · have hzero : ∀ r i,
        (DeployInfra.runSynthFrom w.synth r i).1.count DeployInfra.Event.deploy = 0 :=
      fun r i => List.count_eq_zero.mpr (runSynthFrom_no_deploy w.synth r i)
    by_cases hck : w.checkOk = false
    · simp [DeployInfra.runDeploy, hck]
    · cases hu : DeployInfra.updateInventoryWithPublicIP w.ipResult with
      | error e => simp [DeployInfra.runDeploy, hck, hu]
      | ok s =>
        by_cases hg : (DeployInfra.allResourcesExist w.inventory ||
            DeployInfra.deployGateProceeds w.confirmInput) = true
        · by_cases hin : w.installOk = true
          · by_cases hsy :
                (DeployInfra.runSynthFrom w.synth DeployInfra.synthAttempts 1).2 = true
            · by_cases hd : w.deployOk = true <;>
                simp [DeployInfra.runDeploy, hck, hu, hg, hin, hsy, hd, hzero]
            · simp [DeployInfra.runDeploy, hck, hu, hg, hin, hsy, hzero]
          · simp [DeployInfra.runDeploy, hck, hu, hg, hin]
        · simp [DeployInfra.runDeploy, hck, hu, hg]
  · intro hdep hmem
    by_cases hck : w.checkOk = false
    · simp [DeployInfra.runDeploy, hck]
    · cases hu : DeployInfra.updateInventoryWithPublicIP w.ipResult with
      | error e => simp [DeployInfra.runDeploy, hck, hu]
      | ok s =>
        by_cases hg : (DeployInfra.allResourcesExist w.inventory ||
            DeployInfra.deployGateProceeds w.confirmInput) = true
        · by_cases hin : w.installOk = true
          · by_cases hsy :
                (DeployInfra.runSynthFrom w.synth DeployInfra.synthAttempts 1).2 = true
            · simp [DeployInfra.runDeploy, hck, hu, hg, hin, hsy, hdep]
            · simp [DeployInfra.runDeploy, hck, hu, hg, hin, hsy]
          · simp [DeployInfra.runDeploy, hck, hu, hg, hin]
        · exfalso
          rw [DeployInfra.runDeploy] at hmem
          simp [hck, hu, hg] at hmem

/-- Witness for C3: an always-failing synthesis yields exactly 3 attempts
with two fixed 5000 millisecond pauses and fails; at a concrete world whose
deploy command fails, deploy appears at most once and the run is fatal. -/
theorem synth_retry_deploy_once_witness :
    DeployInfra.runSynthFrom (fun _ => false) DeployInfra.synthAttempts 1 =
      ([DeployInfra.Event.synthAttempt 1, DeployInfra.Event.sleep 5000,
        DeployInfra.Event.synthAttempt 2, DeployInfra.Event.sleep 5000,
        DeployInfra.Event.synthAttempt 3], false) ∧
    (DeployInfra.runDeploy deployFailWorldEx).1.count DeployInfra.Event.deploy ≤ 1 ∧
    (DeployInfra.runDeploy deployFailWorldEx).2 = DeployInfra.Outcome.fatal := by
  have h := synth_retry_deploy_once deployFailWorldEx (fun _ => false)
  exact ⟨h.2.1 (fun _ => rfl), h.2.2.2.1, h.2.2.2.2 rfl (by decide)⟩

/-- C8: the public-IP lookup carries a 10000 millisecond timeout whose firing
rejects with a timeout error, and any lookup failure makes the run fatal
before any cloud mutation: no synthesis attempt and no deploy command appear
in the trace. -/
theorem ip_precondition_fatal (w : DeployInfra.DeployWorld)
    (hck : w.checkOk = true)
    (hfail : ∃ e, DeployInfra.getCurrentPublicIP w.ipResult = Except.error e) :
    (DeployInfra.runDeploy w).2 = DeployInfra.Outcome.fatal ∧
    (DeployInfra.runDeploy w).1.any DeployInfra.isSynthAttempt = false ∧
    DeployInfra.Event.deploy ∉ (DeployInfra.runDeploy w).1 ∧
    DeployInfra.ipTimeoutMs = 10000 ∧
    DeployInfra.getCurrentPublicIP DeployInfra.HttpResult.timedOut =
      Except.error "Request timeout" := by
  obtain ⟨e, he⟩ := hfail
  have hu : DeployInfra.updateInventoryWithPublicIP w.ipResult =
      Except.error "Cannot proceed without public IP address" := by
    simp [DeployInfra.updateInventoryWithPublicIP, he]
  have hrun : DeployInfra.runDeploy w =
      ([DeployInfra.Event.checkResources, DeployInfra.Event.ipLookup],
       DeployInfra.Outcome.fatal) := by
    simp [DeployInfra.runDeploy, hck, hu]
  refine ⟨by rw [hrun], by rw [hrun]; decide, by rw [hrun]; decide, rfl, rfl⟩

/-- Witness for C8 at a concrete world whose lookup timed out. -/
theorem ip_precondition_fatal_witness :
    (DeployInfra.runDeploy ipFailWorldEx).2 = DeployInfra.Outcome.fatal ∧
    DeployInfra.Event.deploy ∉ (DeployInfra.runDeploy ipFailWorldEx).1 := by
  have h := ip_precondition_fatal ipFailWorldEx rfl ⟨"Request timeout", rfl⟩
  exact ⟨h.1, h.2.2.1⟩

/-- Counterexample to C9 as stated: in a concrete inventory where every
presence check passes except the public-subnet check, that one unmet check by
itself makes the all-resources-exist decision false, so the confirmation gate
is forced even though the operator chose to reuse an existing VPC; with the
gate declined the run is cancelled before deployment. -/
theorem subnet_checks_force_gate_counterexample :
    (DeployInfra.existingResources invNoPublicEx).publicSubnet = false ∧
    (DeployInfra.existingResources invNoPublicEx).vpc = true ∧
    (DeployInfra.existingResources invNoPublicEx).subnets = true ∧
    (DeployInfra.existingResources invNoPublicEx).privateSubnet = true ∧
    (DeployInfra.existingResources invNoPublicEx).internetGateway = true ∧
    (DeployInfra.existingResources invNoPublicEx).securityGroups = true ∧
    (DeployInfra.existingResources invNoPublicEx).rds = true ∧
    (DeployInfra.existingResources invNoPublicEx).rdsProxy = true ∧
    (DeployInfra.existingResources invNoPublicEx).ec2 = true ∧
    (DeployInfra.existingResources invNoPublicEx).s3 = true ∧
    (DeployInfra.existingResources invNoPublicEx).routeTables = true ∧
    (DeployInfra.existingResources invNoPublicEx).networkAcls = true ∧
    DeployInfra.allResourcesExist invNoPublicEx = false ∧
    DeployInfra.askVPCPreference noPublicDeclineWorldEx.vpcInput =
      DeployInfra.VpcStrategy.vpcExisting ∧
    (DeployInfra.runDeploy noPublicDeclineWorldEx).2 = DeployInfra.Outcome.cancelled ∧
    DeployInfra.Event.deploy ∉ (DeployInfra.runDeploy noPublicDeclineWorldEx).1 := by
  decide

/-- C9 (amended): an unmet public-subnet or private-subnet presence check is
counted in the all-resources-exist decision regardless of the VPC strategy
(which is chosen only after the gate), so it forces the confirmation gate;
but it does not prevent the run from proceeding to deployment: once the
operator confirms, synthesis is attempted and the run is not cancelled. -/
theorem subnet_checks_gate_but_not_deploy (w : DeployInfra.DeployWorld)
    (hpub : (DeployInfra.existingResources w.inventory).publicSubnet = false ∨
            (DeployInfra.existingResources w.inventory).privateSubnet = false)
    (hck : w.checkOk = true)
    (hip : ∃ s, DeployInfra.updateInventoryWithPublicIP w.ipResult = Except.ok s)
    (hconf : DeployInfra.deployGateProceeds w.confirmInput = true)
    (hin : w.installOk = true) :
    DeployInfra.allResourcesExist w.inventory = false ∧
    DeployInfra.Event.synthAttempt 1 ∈ (DeployInfra.runDeploy w).1 ∧
    (DeployInfra.runDeploy w).2 ≠ DeployInfra.Outcome.cancelled := by
  obtain ⟨s, hs⟩ := hip
  have hg : (DeployInfra.allResourcesExist w.inventory ||
      DeployInfra.deployGateProceeds w.confirmInput) = true := by simp [hconf]
  have hmiss : DeployInfra.allResourcesExist w.inventory = false := by
    rcases hpub with h | h <;>
      simp [DeployInfra.allResourcesExist, h]
  have hm := runSynthFrom_first_attempt w.synth 2 1
  norm_num at hm
  refine ⟨hmiss, ?_, ?_⟩
  · by_cases hsy : (DeployInfra.runSynthFrom w.synth 3 1).2 = true
    · by_cases hd : w.deployOk = true <;>
        simp [DeployInfra.runDeploy, hck, hs, hg, hin, hsy, hd,
          List.mem_append, DeployInfra.synthAttempts, hm]
    · simp [DeployInfra.runDeploy, hck, hs, hg, hin, hsy,
        List.mem_append, DeployInfra.synthAttempts, hm]
  · by_cases hsy : (DeployInfra.runSynthFrom w.synth DeployInfra.synthAttempts 1).2 = true
    · by_cases hd : w.deployOk = true
      · by_cases hv : w.verifyOk = true <;>
          simp [DeployInfra.runDeploy, hck, hs, hg, hin, hsy, hd, hv]
      · simp [DeployInfra.runDeploy, hck, hs, hg, hin, hsy, hd]
    · simp [DeployInfra.runDeploy, hck, hs, hg, hin, hsy]

/-- Witness for C9 at the concrete no-public-subnet inventory with the
operator confirming: the gate was forced, yet the run proceeds to synthesis
and is not cancelled. -/
theorem subnet_checks_gate_but_not_deploy_witness :
    DeployInfra.allResourcesExist invNoPublicEx = false ∧
    DeployInfra.Event.synthAttempt 1 ∈ (DeployInfra.runDeploy noPublicConfirmWorldEx).1 ∧
    (DeployInfra.runDeploy noPublicConfirmWorldEx).2 ≠ DeployInfra.Outcome.cancelled := by
  have h := subnet_checks_gate_but_not_deploy noPublicConfirmWorldEx
    (Or.inl (by decide)) rfl ⟨"1.2.3.4", rfl⟩ (by decide) rfl
  exact h

/-- C10: at the VPC-strategy prompt every input whose trimmed uppercased form
is neither NEW nor EXISTING, the empty input included, defaults to the
new-VPC strategy; unlike the confirmation gate the prompt never halts the
pipeline: the strategy is recorded, synthesis is still attempted, and the
run is not cancelled. -/
theorem vpc_prompt_default_new (input : String) (w : DeployInfra.DeployWorld)
    (hn1 : trimUpper input ≠ "NEW".toList)
    (hn2 : trimUpper input ≠ "EXISTING".toList)
    (hck : w.checkOk = true)
    (hip : ∃ s, DeployInfra.updateInventoryWithPublicIP w.ipResult = Except.ok s)
    (hgate : DeployInfra.allResourcesExist w.inventory = true ∨
             DeployInfra.deployGateProceeds w.confirmInput = true)
    (hin : w.installOk = true) :
    DeployInfra.askVPCPreference input = DeployInfra.VpcStrategy.vpcNew ∧
    DeployInfra.Event.strategyChosen (DeployInfra.askVPCPreference w.vpcInput) ∈
      (DeployInfra.runDeploy w).1 ∧
    DeployInfra.Event.synthAttempt 1 ∈ (DeployInfra.runDeploy w).1 ∧
    (DeployInfra.runDeploy w).2 ≠ DeployInfra.Outcome.cancelled := by
  obtain ⟨s, hs⟩ := hip
  have hg : (DeployInfra.allResourcesExist w.inventory ||
      DeployInfra.deployGateProceeds w.confirmInput) = true := by
    rcases hgate with h | h <;> simp [h]
  have hm := runSynthFrom_first_attempt w.synth 2 1
  norm_num at hm
  refine ⟨?_, ?_, ?_, ?_⟩
  · have h1 : trimUpper input ≠ "NEW".toList := hn1
    have h2 : trimUpper input ≠ "EXISTING".toList := hn2
    simp at h1 h2
    simp [DeployInfra.askVPCPreference, h1, h2]
  · by_cases hsy : (DeployInfra.runSynthFrom w.synth DeployInfra.synthAttempts 1).2 = true
    · by_cases hd : w.deployOk = true <;>
        simp [DeployInfra.runDeploy, hck, hs, hg, hin, hsy, hd, List.mem_append]
    · simp [DeployInfra.runDeploy, hck, hs, hg, hin, hsy, List.mem_append]
  · by_cases hsy : (DeployInfra.runSynthFrom w.synth 3 1).2 = true
    · by_cases hd : w.deployOk = true <;>
        simp [DeployInfra.runDeploy, hck, hs, hg, hin, hsy, hd,
          List.mem_append, DeployInfra.synthAttempts, hm]
    · simp [DeployInfra.runDeploy, hck, hs, hg, hin, hsy,
        List.mem_append, DeployInfra.synthAttempts, hm]
  · by_cases hsy : (DeployInfra.runSynthFrom w.synth DeployInfra.synthAttempts 1).2 = true
    · by_cases hd : w.deployOk = true
      · by_cases hv : w.verifyOk = true <;>
          simp [DeployInfra.runDeploy, hck, hs, hg, hin, hsy, hd, hv]
      · simp [DeployInfra.runDeploy, hck, hs, hg, hin, hsy, hd]
    · simp [DeployInfra.runDeploy, hck, hs, hg, hin, hsy]

/-- Witness for C10: the unrecognized input "maybe" defaults to the new-VPC
strategy, and at a concrete world past the gate the run reaches synthesis. -/
theorem vpc_prompt_default_new_witness :
    DeployInfra.askVPCPreference "maybe" = DeployInfra.VpcStrategy.vpcNew ∧
    DeployInfra.Event.synthAttempt 1 ∈ (DeployInfra.runDeploy noPublicConfirmWorldEx).1 ∧
    (DeployInfra.runDeploy noPublicConfirmWorldEx).2 ≠ DeployInfra.Outcome.cancelled := by
  have h := vpc_prompt_default_new "maybe" noPublicConfirmWorldEx
    (by decide) (by decide) rfl ⟨"1.2.3.4", rfl⟩ (Or.inr (by decide)) rfl
  exact ⟨h.1, h.2.2.1, h.2.2.2⟩

/-- C5: for both environment-file generators, when the target file exists
with content c before generation, after the save step the backup sibling
holds c and the target holds the newly generated content; the two concrete
target and backup names used by the generators are distinct, so the law
applies to both. -/
theorem env_backup_law (fs : GenerateEnv.FileSys) (c newContent : String)
    (envPath backupPath : String) (hne : envPath ≠ backupPath)
    (hex : fs envPath = some c) :
    GenerateEnv.saveEnvFile fs envPath backupPath newContent backupPath = some c ∧
    GenerateEnv.saveEnvFile fs envPath backupPath newContent envPath = some newContent ∧
    GenerateEnv.envLocalName ≠ GenerateEnv.envLocalBackupName ∧
    GenerateEnv.lambdaEnvName ≠ GenerateEnv.lambdaEnvBackupName := by
  refine ⟨?_, ?_, by decide, by decide⟩
  · simp [GenerateEnv.saveEnvFile, hex, Ne.symm hne]
  · simp [GenerateEnv.saveEnvFile, hex]

/-- Witness for C5 at a concrete filesystem holding the frontend env file
with content OLD: the backup receives OLD and the target the new content. -/
theorem env_backup_law_witness :
    GenerateEnv.saveEnvFile fsEx GenerateEnv.envLocalName GenerateEnv.envLocalBackupName
      "NEW" GenerateEnv.envLocalBackupName = some "OLD" ∧
    GenerateEnv.saveEnvFile fsEx GenerateEnv.envLocalName GenerateEnv.envLocalBackupName
      "NEW" GenerateEnv.envLocalName = some "NEW" := by
  have h := env_backup_law fsEx "OLD" "NEW"
    GenerateEnv.envLocalName GenerateEnv.envLocalBackupName (by decide) (by decide)
  exact ⟨h.1, h.2.1⟩

/-- Counterexample to C6 as stated: a request body carrying a question
identifier and an empty selected-answers list is acknowledged as success by
submitSurveyAnswer, because an empty array is truthy and passes the
Array.isArray check; the claim requires it to be rejected. -/
theorem submit_empty_list_accepted :
    Api.isOkB (Api.submitSurveyAnswer
      (some (Api.ParsedBody.fields (Api.JsVal.strv "q1") (Api.JsVal.arrv [])
        Api.JsVal.undef))) = true := by decide

/-- C6 (amended): the submit handler acknowledges success exactly when the
body is present, parses, and carries a truthy question identifier together
with a selected-answers value that is an array; the array may be empty — an
empty list is accepted whenever the question identifier is truthy, and only a
missing body, a parse failure, a falsy question identifier, or a
missing or non-array selected-answers value is rejected as an error. -/
theorem submit_validation_semantics (qid sel ts : Api.JsVal) :
    Api.isOkB (Api.submitSurveyAnswer none) = false ∧
    Api.isOkB (Api.submitSurveyAnswer (some Api.ParsedBody.parseError)) = false ∧
    Api.isOkB (Api.submitSurveyAnswer (some (Api.ParsedBody.fields qid sel ts))) =
      (Api.truthy qid && Api.truthy sel && Api.isArray sel) ∧
    Api.isOkB (Api.submitSurveyAnswer
      (some (Api.ParsedBody.fields qid (Api.JsVal.arrv []) ts))) = Api.truthy qid := by
  refine ⟨rfl, rfl, ?_, ?_⟩
  · cases h1 : Api.truthy qid <;> cases h2 : Api.truthy sel <;>
      cases h3 : Api.isArray sel <;>
      simp [Api.submitSurveyAnswer, Api.isOkB, h1, h2, h3]
  · have ha : Api.truthy (Api.JsVal.arrv []) = true := rfl
    have hb : Api.isArray (Api.JsVal.arrv []) = true := rfl
    cases h1 : Api.truthy qid <;>
      simp [Api.submitSurveyAnswer, Api.isOkB, h1, ha, hb]
